import Mathlib

/-!
Shallow embedding of `src/lib/passport-email.js` (a Mongoose plugin adding
password hashing, verification, throttling and registration to a user schema),
and theorems checking the natural-language specification against it.

Modelling conventions:
* A Mongoose document is a `UserRecord` with the default field names
  (`username`, `email`, `hash`, `salt`, `attempts`, `last`); field-name
  configuration (`usernameField`, `hashField`, ...) is pure renaming and is
  fixed to the defaults.  A missing (`undefined`) string field is modelled as
  `""`: every check site in the source (`!password`, `!this.get(saltField)`,
  `!user.get(usernameField)`, `if (this[emailField])`) tests JS falsiness,
  which identifies `undefined` and `""`.
* External library functions are parameters gathered in `JsEnv`:
  `pbkdf2 password salt iterations keylen` stands for
  `new Buffer(crypto.pbkdf2(password, salt, iterations, keylen), 'binary')
  .toString(options.encoding)` (derivation composed with the configured text
  encoding), and `pow` / `log` stand for `Math.pow` / `Math.log` on JS
  numbers, modelled over `ℚ`.  Theorems that need IEEE-exact identities
  (`Math.log(1) = 0`, `Math.pow(x, 0) = 1`) take them as hypotheses.
* Node-style callbacks `cb(err)`, `cb(null, self)`, `cb(null, false, info)`
  are modelled as inductive return values.  `crypto.randomBytes` is modelled
  by passing the (already encoded) random salt string as an argument.
* `Date.now()` is an `Int` (milliseconds) passed as `now`; the two
  `Date.now()` calls inside one attempt are identified.
* The store is a `List UserRecord`; `findOne` is `List.find?`; `save` on a
  fetched document is recorded in the result (`saved` flag, updated store),
  applying the `pre('save')` lower-casing hook where the store content
  matters.
-/

namespace PassportEmail

/-- A user document carrying the credential fields the plugin adds
(default field names; `""` models an unset string field, and `attempts`,
`last` are the throttling fields `attemptsField`, `lastLoginField`). -/
structure UserRecord where
  username : String
  email : String
  hash : String
  salt : String
  attempts : Nat
  last : Int
deriving DecidableEq, Repr

/-- A record as freshly created by the schema defaults:
`attempts` defaults to `0` and `last` defaults to `Date.now` (the creation
time), per the `schemaFields` declaration (lines 61-70 of the source). -/
def newRecord (username email : String) (creationTime : Int) : UserRecord :=
  { username := username, email := email, hash := "", salt := "",
    attempts := 0, last := creationTime }

/-- The external JS library functions the plugin calls, abstracted:
`pbkdf2 password salt iterations keylen` is the encoded digest
(`crypto.pbkdf2` composed with the `options.encoding` text encoding);
`pow` and `log` are `Math.pow` and `Math.log`. -/
structure JsEnv where
  pbkdf2 : String → String → Nat → Nat → String
  pow : ℚ → ℚ → ℚ
  log : ℚ → ℚ

/-- The recognized options after defaulting (lines 10-42 of the source).
Field-name options are fixed to their defaults in this model; `encoding` is
absorbed into `JsEnv.pbkdf2`. -/
structure Options where
  saltlen : Nat
  iterations : Nat
  keylen : Nat
  usernameLowerCase : Bool
  limitAttempts : Bool
  interval : ℚ
  maxInterval : ℚ
  incorrectPasswordError : String
  incorrectUsernameError : String
  missingUsernameError : String
  missingEmailError : String
  missingPasswordError : String
  userExistsError : String
  noSaltValueStoredError : String
  attemptTooSoonError : String
deriving DecidableEq, Repr

/-- The defaults the plugin fills in (lines 10-42).  `interval` and
`maxInterval` are only installed when `limitAttempts` is set; their default
values are recorded here unconditionally. -/
def defaultOptions : Options :=
  { saltlen := 32
    iterations := 25000
    keylen := 512
    usernameLowerCase := false
    limitAttempts := false
    interval := 100
    maxInterval := 300000
    incorrectPasswordError := "Incorrect password"
    incorrectUsernameError := "Incorrect %s"
    missingUsernameError := "Field %s is not set"
    missingEmailError := "Email is missing"
    missingPasswordError := "Password argument not set!"
    userExistsError := "User already exists with %s %s"
    noSaltValueStoredError :=
      "Authentication not possible. No salt value stored in mongodb collection!"
    attemptTooSoonError := "Login attempted too soon after previous attempt" }

/-- Interleaves template parts (split at `%s`) with arguments; leftover `%s`
separators stay literal, as `util.format` leaves them. -/
def joinFormat : List String → List String → String
  | [], _ => ""
  | [p], _ => p
  | p :: ps, [] => p ++ "%s" ++ joinFormat ps []
  | p :: ps, a :: as => p ++ a ++ joinFormat ps as

/-- `util.format(template, args...)` restricted to `%s` placeholders, the only
directive the source uses. -/
def utilFormat (template : String) (args : List String) : String :=
  joinFormat (template.splitOn "%s") args

/-- Modelled from the spec: `BadRequestError` is required from
`./badrequesterror`, which is not under `src/`; per the spec's error taxonomy
and every call site in `src/lib/passport-email.js` it carries a stable name
(`'missingPassword'`, `'missingUsername'`, `'missingEmail'`,
`'usernameExists'`, `'emailExists'`) plus a configurable message. -/
structure BadRequestError where
  name : String
  message : String
deriving DecidableEq, Repr

/-- The third callback argument of a failed authentication:
`result` models the optional `result` property (`'incorrectPassword'`,
`'incorrectUsername'`; absent on the too-soon and no-salt failures) and
`message` the configurable message property. -/
structure AuthInfo where
  result : Option String
  message : String
deriving DecidableEq, Repr

/-- Outcome of a per-record authentication callback: `ok self` for
`cb(null, self)` and `fail info` for `cb(null, false, info)`. -/
inductive AuthOutcome where
  | ok (user : UserRecord)
  | fail (info : AuthInfo)
deriving DecidableEq, Repr

/-- Full effect of one `schema.methods.authenticate` call: the callback
outcome, the in-memory document afterwards, whether `this.save()` was
invoked, and whether `crypto.pbkdf2` was invoked. -/
structure AuthResult where
  outcome : AuthOutcome
  self : UserRecord
  saved : Bool
  hashed : Bool
deriving DecidableEq, Repr

/-- Outcome of `setPassword` and of `register`: `err e` for `cb(err)` with a
`BadRequestError`, `ok u` for `cb(null, user)`. -/
inductive UserResult where
  | err (e : BadRequestError)
  | ok (user : UserRecord)
deriving DecidableEq, Repr

/-- JS `.toLowerCase()`: per-character lowercasing (semantically
`String.toLower`, defined by structural recursion over the characters). -/
def toLowerStr (s : String) : String := ⟨s.data.map Char.toLower⟩

/-- The `pre('save')` hook (lines 74-84): lower-case the username when
configured, and always lower-case a present (truthy) email. -/
def preSave (opts : Options) (r : UserRecord) : UserRecord :=
  let r1 := if opts.usernameLowerCase then { r with username := toLowerStr r.username } else r
  if r1.email ≠ "" then { r1 with email := toLowerStr r1.email } else r1

/-- `schema.methods.setPassword` (lines 86-111): rejects a falsy password,
otherwise derives the digest from the freshly generated salt and stores the
pair.  `saltValue` is the already-encoded output of
`crypto.randomBytes(saltlen).toString(encoding)`. -/
def setPassword (env : JsEnv) (opts : Options) (self : UserRecord)
    (password saltValue : String) : UserResult :=
  if password = "" then
    .err { name := "missingPassword", message := opts.missingPasswordError }
  else
    .ok { self with
          hash := env.pbkdf2 password saltValue opts.iterations opts.keylen
          salt := saltValue }

/-- The throttle delay of lines 117-118:
`Math.pow(interval, Math.log(attempts + 1))` capped at `maxInterval` by the
conditional expression. -/
def throttleDelay (env : JsEnv) (opts : Options) (attempts : Nat) : ℚ :=
  let attemptsInterval := env.pow opts.interval (env.log ((attempts : ℚ) + 1))
  if attemptsInterval < opts.maxInterval then attemptsInterval else opts.maxInterval

/-- Lines 130-161 of `schema.methods.authenticate`: the part after the
throttle gate.  A falsy stored salt fails with the no-salt message (no
mutation, no derivation); otherwise the digest is recomputed and compared,
updating the throttle fields only when `limitAttempts` is set. -/
def authVerify (env : JsEnv) (opts : Options) (self : UserRecord)
    (password : String) (now : Int) : AuthResult :=
  if self.salt = "" then
    { outcome := .fail { result := none, message := opts.noSaltValueStoredError }
      self := self, saved := false, hashed := false }
  else
    let hash := env.pbkdf2 password self.salt opts.iterations opts.keylen
    if hash = self.hash then
      if opts.limitAttempts then
        let upd := { self with last := now, attempts := 0 }
        { outcome := .ok upd, self := upd, saved := true, hashed := true }
      else
        { outcome := .ok self, self := self, saved := false, hashed := true }
    else
      let info : AuthInfo :=
        { result := some "incorrectPassword", message := opts.incorrectPasswordError }
      if opts.limitAttempts then
        let upd := { self with last := now, attempts := self.attempts + 1 }
        { outcome := .fail info, self := upd, saved := true, hashed := true }
      else
        { outcome := .fail info, self := self, saved := false, hashed := true }

/-- `schema.methods.authenticate` (lines 113-162): when `limitAttempts` is
set and `Date.now() - last` is below the computed delay, the attempt is
rejected too-soon (updating only `last`, saving, no derivation); otherwise
verification proceeds. -/
def authenticateRec (env : JsEnv) (opts : Options) (self : UserRecord)
    (password : String) (now : Int) : AuthResult :=
  if opts.limitAttempts then
    if ((now - self.last : Int) : ℚ) < throttleDelay env opts self.attempts then
      { outcome := .fail { result := none, message := opts.attemptTooSoonError }
        self := { self with last := now }, saved := true, hashed := false }
    else
      authVerify env opts self password now
  else
    authVerify env opts self password now

/-- `schema.statics.findByUsername` (lines 259-283) on a list store:
lower-cases the queried username when configured and returns the first
match (`findOne`). -/
def findByUsername (opts : Options) (db : List UserRecord) (username : String) :
    Option UserRecord :=
  let u := if opts.usernameLowerCase then toLowerStr username else username
  db.find? (fun r => r.username == u)

/-- `schema.statics.findByEmail` (lines 285-309): always lower-cases the
queried email and returns the first match. -/
def findByEmail (db : List UserRecord) (email : String) : Option UserRecord :=
  db.find? (fun r => r.email == toLowerStr email)

/-- Replaces the first list element satisfying `p`. -/
def replaceFirst (p : UserRecord → Bool) (upd : UserRecord) :
    List UserRecord → List UserRecord
  | [] => []
  | r :: rest => if p r then upd :: rest else r :: replaceFirst p upd rest

/-- Effect on the store of the `save()` a per-record authentication may have
issued: the fetched document `old` is replaced by the updated document after
the `pre('save')` hook. -/
def saveToDb (opts : Options) (old : UserRecord) (res : AuthResult)
    (db : List UserRecord) : List UserRecord :=
  if res.saved then replaceFirst (fun r => r == old) (preSave opts res.self) db else db

/-- Outcome of the top-level `schema.statics.authenticate` closure: the
callback outcome, the store afterwards, and whether any digest derivation
happened. -/
structure StaticAuthResult where
  outcome : AuthOutcome
  db : List UserRecord
  hashed : Bool
deriving DecidableEq, Repr

/-- `schema.statics.authenticate` (lines 164-193): look up by username
first; only when that misses, by email; when both miss, fail with the
`incorrectUsername` result and the formatted configurable message. -/
def staticAuthenticate (env : JsEnv) (opts : Options) (db : List UserRecord)
    (usernameOrEmail password : String) (now : Int) : StaticAuthResult :=
  match findByUsername opts db usernameOrEmail with
  | some user =>
    let res := authenticateRec env opts user password now
    { outcome := res.outcome, db := saveToDb opts user res db, hashed := res.hashed }
  | none =>
    match findByEmail db usernameOrEmail with
    | some user =>
      let res := authenticateRec env opts user password now
      { outcome := res.outcome, db := saveToDb opts user res db, hashed := res.hashed }
    | none =>
      { outcome := .fail { result := some "incorrectUsername",
                           message := utilFormat opts.incorrectUsernameError ["username"] }
        db := db, hashed := false }

/-- Effect of one `schema.statics.register` call (lines 209-257): the
callback outcome, the store afterwards, and how many store lookups
(`findByUsername` / `findByEmail`) were performed before returning. -/
structure RegisterResult where
  outcome : UserResult
  db : List UserRecord
  reads : Nat
deriving DecidableEq, Repr

/-- `schema.statics.register` (lines 209-257): reject a falsy username, then
a falsy email (both before any store access); then fail on an existing
username, then on an existing email (both without writing); only then set
the password and persist the new record (through the `pre('save')` hook),
returning it. -/
def register (env : JsEnv) (opts : Options) (db : List UserRecord)
    (user : UserRecord) (password saltValue : String) : RegisterResult :=
  if user.username = "" then
    { outcome := .err { name := "missingUsername",
                        message := utilFormat opts.missingUsernameError ["username"] }
      db := db, reads := 0 }
  else if user.email = "" then
    { outcome := .err { name := "missingEmail", message := opts.missingEmailError }
      db := db, reads := 0 }
  else
    match findByUsername opts db user.username with
    | some _ =>
      { outcome := .err { name := "usernameExists",
                          message := utilFormat opts.userExistsError
                            ["username", user.username] }
        db := db, reads := 1 }
    | none =>
      match findByEmail db user.email with
      | some _ =>
        { outcome := .err { name := "emailExists",
                            message := utilFormat opts.userExistsError
                              ["email", user.email] }
          db := db, reads := 2 }
      | none =>
        match setPassword env opts user password saltValue with
        | .err e => { outcome := .err e, db := db, reads := 2 }
        | .ok u =>
          let saved := preSave opts u
          { outcome := .ok saved, db := db ++ [saved], reads := 2 }

/-- A concrete, fully computable instantiation of the abstract library
functions, used to evaluate the theorems at concrete inputs.  It satisfies
the IEEE-754 identities assumed of `Math.log` / `Math.pow`
(`log 1 = 0`, `pow x 0 = 1`). -/
def fixEnv : JsEnv :=
  { pbkdf2 := fun password salt _ _ => password ++ "|" ++ salt
    pow := fun _ _ => 1
    log := fun _ => 0 }

/-- Default options with attempt limiting switched on. -/
def fixOptsLA : Options := { defaultOptions with limitAttempts := true }

/-- Attempt limiting on, with the too-soon and no-salt messages configured
to the same text. -/
def fixOptsSameMsg : Options :=
  { defaultOptions with
    limitAttempts := true
    attemptTooSoonError := "login failed"
    noSaltValueStoredError := "login failed" }

/-- A freshly created record: no credential, default throttle fields. -/
def fixFresh : UserRecord := newRecord "hugo" "h@x.com" 50

/-- A record whose credential was set from password `"pw"` and salt `"ab"`
under `fixEnv`. -/
def fixCred : UserRecord :=
  { username := "hugo", email := "h@x.com", hash := "pw|ab", salt := "ab",
    attempts := 0, last := 0 }

/-- The conditional expression of line 118 computes the minimum of the
configured cap and the attempt-dependent interval. -/
theorem throttleDelay_eq_min (env : JsEnv) (opts : Options) (attempts : Nat) :
    throttleDelay env opts attempts =
      min opts.maxInterval (env.pow opts.interval (env.log ((attempts : ℚ) + 1))) := by
  unfold throttleDelay
  rcases lt_or_le (env.pow opts.interval (env.log ((attempts : ℚ) + 1))) opts.maxInterval
    with h | h
  · rw [if_pos h, min_eq_right h.le]
  · rw [if_neg (not_lt.mpr h), min_eq_left h]

/-- Claim C2: with throttling enabled, an attempt arriving before
`min(maxInterval, interval ^ ln(failureCount + 1))` has elapsed since the
last attempt sets `lastAttemptAt` to `now`, persists, and fails with the
too-soon info — with no digest computation and `failureCount` unchanged. -/
theorem authenticate_throttled_tooSoon (env : JsEnv) (opts : Options)
    (self : UserRecord) (password : String) (now : Int)
    (hla : opts.limitAttempts = true)
    (hcond : ((now - self.last : Int) : ℚ) <
      min opts.maxInterval (env.pow opts.interval (env.log ((self.attempts : ℚ) + 1)))) :
    authenticateRec env opts self password now =
      { outcome := .fail { result := none, message := opts.attemptTooSoonError }
        self := { self with last := now }, saved := true, hashed := false } ∧
    ({ self with last := now } : UserRecord).attempts = self.attempts := by
  rw [← throttleDelay_eq_min] at hcond
  push_cast at hcond
  unfold authenticateRec
  simp [hla, hcond]

theorem authenticate_throttled_tooSoon_witness :
    authenticateRec fixEnv fixOptsLA fixFresh "pw" 50 =
      { outcome := .fail { result := none, message := fixOptsLA.attemptTooSoonError }
        self := { fixFresh with last := 50 }, saved := true, hashed := false } ∧
    ({ fixFresh with last := 50 } : UserRecord).attempts = fixFresh.attempts :=
  authenticate_throttled_tooSoon fixEnv fixOptsLA fixFresh "pw" 50 (by decide) (by decide)

/-- Claim C3: with throttling enabled, once the throttle delay has elapsed
and a salt is stored, authenticating with the correct secret sets
`lastAttemptAt` to `now`, resets `failureCount` to `0`, persists, and
returns the principal. -/
theorem authenticate_open_correct_secret (env : JsEnv) (opts : Options)
    (self : UserRecord) (password : String) (now : Int)
    (hla : opts.limitAttempts = true)
    (hopen : ¬ ((now - self.last : Int) : ℚ) <
      min opts.maxInterval (env.pow opts.interval (env.log ((self.attempts : ℚ) + 1))))
    (hsalt : self.salt ≠ "")
    (hhash : env.pbkdf2 password self.salt opts.iterations opts.keylen = self.hash) :
    authenticateRec env opts self password now =
      { outcome := .ok { self with last := now, attempts := 0 }
        self := { self with last := now, attempts := 0 }
        saved := true, hashed := true } := by
  rw [← throttleDelay_eq_min] at hopen
  push_cast at hopen
  unfold authenticateRec authVerify
  simp [hla, hopen, hsalt, hhash]

theorem authenticate_open_correct_secret_witness :
    authenticateRec fixEnv fixOptsLA fixCred "pw" 1000 =
      { outcome := .ok { fixCred with last := 1000, attempts := 0 }
        self := { fixCred with last := 1000, attempts := 0 }
        saved := true, hashed := true } :=
  authenticate_open_correct_secret fixEnv fixOptsLA fixCred "pw" 1000
    (by decide) (by decide) (by decide) (by decide)

/-- Claim C4: with throttling enabled, once the throttle delay has elapsed
and a salt is stored, authenticating with an incorrect secret sets
`lastAttemptAt` to `now`, increments `failureCount` by exactly one,
persists, and fails with the incorrect-password info. -/
theorem authenticate_open_wrong_secret (env : JsEnv) (opts : Options)
    (self : UserRecord) (password : String) (now : Int)
    (hla : opts.limitAttempts = true)
    (hopen : ¬ ((now - self.last : Int) : ℚ) <
      min opts.maxInterval (env.pow opts.interval (env.log ((self.attempts : ℚ) + 1))))
    (hsalt : self.salt ≠ "")
    (hhash : env.pbkdf2 password self.salt opts.iterations opts.keylen ≠ self.hash) :
    authenticateRec env opts self password now =
      { outcome := .fail { result := some "incorrectPassword",
                           message := opts.incorrectPasswordError }
        self := { self with last := now, attempts := self.attempts + 1 }
        saved := true, hashed := true } := by
  rw [← throttleDelay_eq_min] at hopen
  push_cast at hopen
  unfold authenticateRec authVerify
  simp [hla, hopen, hsalt, hhash]

theorem authenticate_open_wrong_secret_witness :
    authenticateRec fixEnv fixOptsLA fixCred "wrong" 1000 =
      { outcome := .fail { result := some "incorrectPassword",
                           message := fixOptsLA.incorrectPasswordError }
        self := { fixCred with last := 1000, attempts := fixCred.attempts + 1 }
        saved := true, hashed := true } :=
  authenticate_open_wrong_secret fixEnv fixOptsLA fixCred "wrong" 1000
    (by decide) (by decide) (by decide) (by decide)

/-- Claim C1: for every non-empty secret, setting it with `setPassword`
stores the salt and digest, the digest recomputed by the derivation
function from the secret, the stored salt, the configured iteration count
and key length equals the stored digest, and authenticating the same record
with that secret (when not throttled) returns the principal, having invoked
the derivation. -/
theorem setPassword_then_authenticate_succeeds (env : JsEnv) (opts : Options)
    (self : UserRecord) (s saltValue : String) (now : Int)
    (hs : s ≠ "") (hsalt : saltValue ≠ "")
    (hopen : opts.limitAttempts = true →
      ¬ ((now - self.last : Int) : ℚ) <
        min opts.maxInterval (env.pow opts.interval (env.log ((self.attempts : ℚ) + 1)))) :
    ∃ u, setPassword env opts self s saltValue = .ok u ∧
      u.salt = saltValue ∧
      env.pbkdf2 s u.salt opts.iterations opts.keylen = u.hash ∧
      ∃ p, authenticateRec env opts u s now =
          { outcome := .ok p, self := p, saved := opts.limitAttempts, hashed := true } ∧
        p.hash = u.hash ∧ p.salt = u.salt := by
  refine ⟨{ self with
            hash := env.pbkdf2 s saltValue opts.iterations opts.keylen
            salt := saltValue }, ?_, rfl, rfl, ?_⟩
  · unfold setPassword
    rw [if_neg hs]
  · cases hla : opts.limitAttempts with
    | false =>
      refine ⟨_, ?_, rfl, rfl⟩
      unfold authenticateRec authVerify
      simp [hla, hsalt]
    | true =>
      have hopen' := hopen hla
      rw [← throttleDelay_eq_min] at hopen'
      push_cast at hopen'
      refine ⟨{ self with
                hash := env.pbkdf2 s saltValue opts.iterations opts.keylen
                salt := saltValue, last := now, attempts := 0 }, ?_, rfl, rfl⟩
      unfold authenticateRec authVerify
      simp [hla, hopen', hsalt]

theorem setPassword_then_authenticate_succeeds_witness :
    ∃ u, setPassword fixEnv defaultOptions (newRecord "hugo" "h@x.com" 0) "pw" "ab" = .ok u ∧
      u.salt = "ab" ∧
      fixEnv.pbkdf2 "pw" u.salt defaultOptions.iterations defaultOptions.keylen = u.hash ∧
      ∃ p, authenticateRec fixEnv defaultOptions u "pw" 7 =
          { outcome := .ok p, self := p, saved := defaultOptions.limitAttempts, hashed := true } ∧
        p.hash = u.hash ∧ p.salt = u.salt :=
  setPassword_then_authenticate_succeeds fixEnv defaultOptions (newRecord "hugo" "h@x.com" 0)
    "pw" "ab" 7 (by decide) (by decide) (by decide)

/-- Claim C9: when attempt limiting is disabled, a per-record
authentication never saves and leaves the in-memory record unchanged,
whatever the outcome. -/
theorem authenticate_no_limit_frame (env : JsEnv) (opts : Options)
    (self : UserRecord) (password : String) (now : Int)
    (hla : opts.limitAttempts = false) :
    (authenticateRec env opts self password now).self = self ∧
    (authenticateRec env opts self password now).saved = false := by
  unfold authenticateRec authVerify
  by_cases hsalt : self.salt = "" <;>
    by_cases hh : env.pbkdf2 password self.salt opts.iterations opts.keylen = self.hash <;>
      simp [hla, hsalt, hh]

theorem authenticate_no_limit_frame_witness :
    (authenticateRec fixEnv defaultOptions fixCred "wrong" 3).self = fixCred ∧
    (authenticateRec fixEnv defaultOptions fixCred "wrong" 3).saved = false :=
  authenticate_no_limit_frame fixEnv defaultOptions fixCred "wrong" 3 (by decide)

/-- Claim C10: with throttling enabled and `failureCount = 0`, given the
IEEE identities `Math.log(1) = 0` and `Math.pow(x, 0) = 1` and a cap of at
least one millisecond, the computed delay is exactly `1`, so any attempt
less than one millisecond after `lastAttemptAt` — including on a freshly
created record, whose fields default to `attempts = 0` and
`last = creation time` — is rejected too-soon. -/
theorem authenticate_zero_failures_delay_one (env : JsEnv) (opts : Options)
    (self : UserRecord) (password : String) (now : Int)
    (hla : opts.limitAttempts = true)
    (hatt : self.attempts = 0)
    (hlog : env.log 1 = 0)
    (hpow : env.pow opts.interval 0 = 1)
    (hmax : 1 ≤ opts.maxInterval)
    (hlt : ((now - self.last : Int) : ℚ) < 1) :
    throttleDelay env opts self.attempts = 1 ∧
    authenticateRec env opts self password now =
      { outcome := .fail { result := none, message := opts.attemptTooSoonError }
        self := { self with last := now }, saved := true, hashed := false } := by
  have hd : throttleDelay env opts self.attempts = 1 := by
    unfold throttleDelay
    rw [hatt]
    norm_num [hlog, hpow]
    intro h
    exact le_antisymm h hmax
  refine ⟨hd, ?_⟩
  have hcond : ((now - self.last : Int) : ℚ) < throttleDelay env opts self.attempts := by
    rw [hd]; exact hlt
  push_cast at hcond
  unfold authenticateRec
  simp [hla, hcond]

theorem authenticate_zero_failures_delay_one_witness :
    throttleDelay fixEnv fixOptsLA (newRecord "hugo" "h@x.com" 50).attempts = 1 ∧
    authenticateRec fixEnv fixOptsLA (newRecord "hugo" "h@x.com" 50) "pw" 50 =
      { outcome := .fail { result := none, message := fixOptsLA.attemptTooSoonError }
        self := { newRecord "hugo" "h@x.com" 50 with last := 50 }
        saved := true, hashed := false } :=
  authenticate_zero_failures_delay_one fixEnv fixOptsLA (newRecord "hugo" "h@x.com" 50) "pw" 50
    (by decide) (by decide) (by decide) (by decide) (by decide) (by decide)

/-- Claim C5: the top-level `authenticate` entry point tries the username
lookup first and delegates to it when it hits; only when it misses is the
email lookup tried; and when both miss the result is the unknown-identifier
failure with the store untouched and no digest derivation. -/
theorem staticAuthenticate_lookup_order (env : JsEnv) (opts : Options)
    (db : List UserRecord) (login password : String) (now : Int) :
    (∀ u, findByUsername opts db login = some u →
      staticAuthenticate env opts db login password now =
        { outcome := (authenticateRec env opts u password now).outcome
          db := saveToDb opts u (authenticateRec env opts u password now) db
          hashed := (authenticateRec env opts u password now).hashed }) ∧
    (findByUsername opts db login = none → ∀ u, findByEmail db login = some u →
      staticAuthenticate env opts db login password now =
        { outcome := (authenticateRec env opts u password now).outcome
          db := saveToDb opts u (authenticateRec env opts u password now) db
          hashed := (authenticateRec env opts u password now).hashed }) ∧
    (findByUsername opts db login = none → findByEmail db login = none →
      staticAuthenticate env opts db login password now =
        { outcome := .fail { result := some "incorrectUsername",
                             message := utilFormat opts.incorrectUsernameError ["username"] }
          db := db, hashed := false }) := by
  refine ⟨?_, ?_, ?_⟩
  · intro u hu
    unfold staticAuthenticate
    rw [hu]
  · intro h1 u h2
    unfold staticAuthenticate
    rw [h1, h2]
  · intro h1 h2
    unfold staticAuthenticate
    rw [h1, h2]

theorem staticAuthenticate_lookup_order_witness :
    staticAuthenticate fixEnv defaultOptions [fixCred] "hugo" "pw" 9 =
      { outcome := (authenticateRec fixEnv defaultOptions fixCred "pw" 9).outcome
        db := saveToDb defaultOptions fixCred
          (authenticateRec fixEnv defaultOptions fixCred "pw" 9) [fixCred]
        hashed := (authenticateRec fixEnv defaultOptions fixCred "pw" 9).hashed } ∧
    staticAuthenticate fixEnv defaultOptions [fixCred] "h@x.com" "pw" 9 =
      { outcome := (authenticateRec fixEnv defaultOptions fixCred "pw" 9).outcome
        db := saveToDb defaultOptions fixCred
          (authenticateRec fixEnv defaultOptions fixCred "pw" 9) [fixCred]
        hashed := (authenticateRec fixEnv defaultOptions fixCred "pw" 9).hashed } ∧
    staticAuthenticate fixEnv defaultOptions [fixCred] "nobody" "pw" 9 =
      { outcome := .fail { result := some "incorrectUsername",
                           message := utilFormat defaultOptions.incorrectUsernameError
                             ["username"] }
        db := [fixCred], hashed := false } :=
  ⟨(staticAuthenticate_lookup_order fixEnv defaultOptions [fixCred] "hugo" "pw" 9).1
      fixCred (by decide),
   (staticAuthenticate_lookup_order fixEnv defaultOptions [fixCred] "h@x.com" "pw" 9).2.1
      (by decide) fixCred (by decide),
   (staticAuthenticate_lookup_order fixEnv defaultOptions [fixCred] "nobody" "pw" 9).2.2
      (by decide) (by decide)⟩

/-- Claim C6: `register` validates in the fixed order missing username,
missing email, existing username, existing email; the first failing check's
error is returned, the missing-field errors are produced with no store
lookup, the conflict errors with no store write; only when all four checks
pass is the secret set and the record persisted, returning the principal. -/
theorem register_validation_order (env : JsEnv) (opts : Options)
    (db : List UserRecord) (user : UserRecord) (password saltValue : String) :
    (user.username = "" →
      register env opts db user password saltValue =
        { outcome := .err { name := "missingUsername",
                            message := utilFormat opts.missingUsernameError ["username"] }
          db := db, reads := 0 }) ∧
    (user.username ≠ "" → user.email = "" →
      register env opts db user password saltValue =
        { outcome := .err { name := "missingEmail", message := opts.missingEmailError }
          db := db, reads := 0 }) ∧
    (user.username ≠ "" → user.email ≠ "" →
      ∀ w, findByUsername opts db user.username = some w →
      register env opts db user password saltValue =
        { outcome := .err { name := "usernameExists",
                            message := utilFormat opts.userExistsError
                              ["username", user.username] }
          db := db, reads := 1 }) ∧
    (user.username ≠ "" → user.email ≠ "" →
      findByUsername opts db user.username = none →
      ∀ w, findByEmail db user.email = some w →
      register env opts db user password saltValue =
        { outcome := .err { name := "emailExists",
                            message := utilFormat opts.userExistsError
                              ["email", user.email] }
          db := db, reads := 2 }) ∧
    (user.username ≠ "" → user.email ≠ "" →
      findByUsername opts db user.username = none →
      findByEmail db user.email = none → password ≠ "" →
      ∃ u, setPassword env opts user password saltValue = .ok u ∧
        register env opts db user password saltValue =
          { outcome := .ok (preSave opts u), db := db ++ [preSave opts u], reads := 2 }) := by
  refine ⟨?_, ?_, ?_, ?_, ?_⟩
  · intro h1
    unfold register
    rw [if_pos h1]
  · intro h1 h2
    unfold register
    rw [if_neg h1, if_pos h2]
  · intro h1 h2 w hw
    unfold register
    rw [if_neg h1, if_neg h2, hw]
  · intro h1 h2 h3 w hw
    unfold register
    rw [if_neg h1, if_neg h2, h3, hw]
  · intro h1 h2 h3 h4 hp
    refine ⟨{ user with
              hash := env.pbkdf2 password saltValue opts.iterations opts.keylen
              salt := saltValue }, ?_, ?_⟩
    · unfold setPassword
      rw [if_neg hp]
    · unfold register setPassword
      rw [if_neg h1, if_neg h2, h3, h4, if_neg hp]

theorem register_validation_order_witness :
    register fixEnv defaultOptions [] (newRecord "" "e@x.com" 0) "pw" "ab" =
      { outcome := .err { name := "missingUsername",
                          message := utilFormat defaultOptions.missingUsernameError
                            ["username"] }
        db := [], reads := 0 } ∧
    register fixEnv defaultOptions [] (newRecord "hugo" "" 0) "pw" "ab" =
      { outcome := .err { name := "missingEmail",
                          message := defaultOptions.missingEmailError }
        db := [], reads := 0 } ∧
    register fixEnv defaultOptions [fixCred] (newRecord "hugo" "new@x.com" 0) "pw" "ab" =
      { outcome := .err { name := "usernameExists",
                          message := utilFormat defaultOptions.userExistsError
                            ["username", "hugo"] }
        db := [fixCred], reads := 1 } ∧
    register fixEnv defaultOptions [fixCred] (newRecord "other" "h@x.com" 0) "pw" "ab" =
      { outcome := .err { name := "emailExists",
                          message := utilFormat defaultOptions.userExistsError
                            ["email", "h@x.com"] }
        db := [fixCred], reads := 2 } ∧
    ∃ u, setPassword fixEnv defaultOptions (newRecord "hugo" "h@x.com" 0) "pw" "ab" = .ok u ∧
      register fixEnv defaultOptions [] (newRecord "hugo" "h@x.com" 0) "pw" "ab" =
        { outcome := .ok (preSave defaultOptions u)
          db := [] ++ [preSave defaultOptions u], reads := 2 } :=
  ⟨(register_validation_order fixEnv defaultOptions [] (newRecord "" "e@x.com" 0)
      "pw" "ab").1 rfl,
   (register_validation_order fixEnv defaultOptions [] (newRecord "hugo" "" 0)
      "pw" "ab").2.1 (by decide) rfl,
   (register_validation_order fixEnv defaultOptions [fixCred] (newRecord "hugo" "new@x.com" 0)
      "pw" "ab").2.2.1 (by decide) (by decide) fixCred (by decide),
   (register_validation_order fixEnv defaultOptions [fixCred] (newRecord "other" "h@x.com" 0)
      "pw" "ab").2.2.2.1 (by decide) (by decide) (by decide) fixCred (by decide),
   (register_validation_order fixEnv defaultOptions [] (newRecord "hugo" "h@x.com" 0)
      "pw" "ab").2.2.2.2 (by decide) (by decide) (by decide) (by decide) (by decide)⟩

/-- Claim C7: a record without a stored salt that is not throttled fails
with the no-salt info, with no save, no record change and no digest
derivation; that info differs from the incorrect-password info (which
carries a result code) and — as long as the two configured messages differ,
as they do by default — from the too-soon info. -/
theorem authenticate_no_salt_distinct (env : JsEnv) (opts : Options)
    (self : UserRecord) (password : String) (now : Int)
    (hsalt : self.salt = "")
    (hopen : opts.limitAttempts = true →
      ¬ ((now - self.last : Int) : ℚ) <
        min opts.maxInterval (env.pow opts.interval (env.log ((self.attempts : ℚ) + 1))))
    (hmsg : opts.noSaltValueStoredError ≠ opts.attemptTooSoonError) :
    authenticateRec env opts self password now =
      { outcome := .fail { result := none, message := opts.noSaltValueStoredError }
        self := self, saved := false, hashed := false } ∧
    ({ result := none, message := opts.noSaltValueStoredError } : AuthInfo) ≠
      { result := some "incorrectPassword", message := opts.incorrectPasswordError } ∧
    ({ result := none, message := opts.noSaltValueStoredError } : AuthInfo) ≠
      { result := none, message := opts.attemptTooSoonError } := by
  refine ⟨?_, by simp, by simp [hmsg]⟩
  cases hla : opts.limitAttempts with
  | false =>
    unfold authenticateRec authVerify
    simp [hla, hsalt]
  | true =>
    have hopen' := hopen hla
    rw [← throttleDelay_eq_min] at hopen'
    push_cast at hopen'
    unfold authenticateRec authVerify
    simp [hla, hopen', hsalt]

theorem authenticate_no_salt_distinct_witness :
    authenticateRec fixEnv fixOptsLA fixFresh "pw" 5000 =
      { outcome := .fail { result := none,
                           message := fixOptsLA.noSaltValueStoredError }
        self := fixFresh, saved := false, hashed := false } ∧
    ({ result := none, message := fixOptsLA.noSaltValueStoredError } : AuthInfo) ≠
      { result := some "incorrectPassword", message := fixOptsLA.incorrectPasswordError } ∧
    ({ result := none, message := fixOptsLA.noSaltValueStoredError } : AuthInfo) ≠
      { result := none, message := fixOptsLA.attemptTooSoonError } :=
  authenticate_no_salt_distinct fixEnv fixOptsLA fixFresh "pw" 5000
    (by decide) (by decide) (by decide)

/-- Claim C8 counterexample: with the too-soon and no-salt messages
configured to the same text, a throttled attempt (`now = last`) and a
no-credential attempt on the same record (long after `last`) return
literally identical failure info, with no result code at all — so those two
failure reasons carry no stable machine-readable reason code independent of
the configurable message text. -/
theorem auth_failure_reasons_share_info :
    (authenticateRec fixEnv fixOptsSameMsg fixFresh "pw" 50).outcome =
      .fail { result := none, message := "login failed" } ∧
    (authenticateRec fixEnv fixOptsSameMsg fixFresh "pw" 5000).outcome =
      .fail { result := none, message := "login failed" } ∧
    ({ result := none, message := "login failed" } :
      AuthInfo).result = none := by
  decide

/-- Claim C8 (amended): the incorrect-secret and unknown-identifier
failures carry the stable distinct result codes `'incorrectPassword'` and
`'incorrectUsername'` independent of the configured message text, but the
too-soon and no-credential failures carry `result := none` — only their
configurable message distinguishes them. -/
theorem auth_failure_reason_codes (env : JsEnv) (opts : Options)
    (db : List UserRecord) (self : UserRecord) (login password : String) (now : Int) :
    ((opts.limitAttempts = true →
        ¬ ((now - self.last : Int) : ℚ) <
          min opts.maxInterval (env.pow opts.interval (env.log ((self.attempts : ℚ) + 1)))) →
      self.salt ≠ "" →
      env.pbkdf2 password self.salt opts.iterations opts.keylen ≠ self.hash →
      (authenticateRec env opts self password now).outcome =
        .fail { result := some "incorrectPassword",
                message := opts.incorrectPasswordError }) ∧
    (findByUsername opts db login = none → findByEmail db login = none →
      (staticAuthenticate env opts db login password now).outcome =
        .fail { result := some "incorrectUsername",
                message := utilFormat opts.incorrectUsernameError ["username"] }) ∧
    (opts.limitAttempts = true →
      ((now - self.last : Int) : ℚ) <
        min opts.maxInterval (env.pow opts.interval (env.log ((self.attempts : ℚ) + 1))) →
      (authenticateRec env opts self password now).outcome =
        .fail { result := none, message := opts.attemptTooSoonError }) ∧
    ((opts.limitAttempts = true →
        ¬ ((now - self.last : Int) : ℚ) <
          min opts.maxInterval (env.pow opts.interval (env.log ((self.attempts : ℚ) + 1)))) →
      self.salt = "" →
      (authenticateRec env opts self password now).outcome =
        .fail { result := none, message := opts.noSaltValueStoredError }) := by
  refine ⟨?_, ?_, ?_, ?_⟩
  · intro hopen hsalt hhash
    cases hla : opts.limitAttempts with
    | false =>
      unfold authenticateRec authVerify
      simp [hla, hsalt, hhash]
    | true =>
      have hopen' := hopen hla
      rw [← throttleDelay_eq_min] at hopen'
      push_cast at hopen'
      unfold authenticateRec authVerify
      simp [hla, hopen', hsalt, hhash]
  · intro h1 h2
    unfold staticAuthenticate
    rw [h1, h2]
  · intro hla hcond
    rw [← throttleDelay_eq_min] at hcond
    push_cast at hcond
    unfold authenticateRec
    simp [hla, hcond]
  · intro hopen hsalt
    cases hla : opts.limitAttempts with
    | false =>
      unfold authenticateRec authVerify
      simp [hla, hsalt]
    | true =>
      have hopen' := hopen hla
      rw [← throttleDelay_eq_min] at hopen'
      push_cast at hopen'
      unfold authenticateRec authVerify
      simp [hla, hopen', hsalt]

theorem auth_failure_reason_codes_witness :
    (authenticateRec fixEnv fixOptsLA fixCred "wrong" 1000).outcome =
      .fail { result := some "incorrectPassword",
              message := fixOptsLA.incorrectPasswordError } ∧
    (staticAuthenticate fixEnv fixOptsLA [fixCred] "nobody" "pw" 1000).outcome =
      .fail { result := some "incorrectUsername",
              message := utilFormat fixOptsLA.incorrectUsernameError ["username"] } ∧
    (authenticateRec fixEnv fixOptsLA fixFresh "pw" 50).outcome =
      .fail { result := none, message := fixOptsLA.attemptTooSoonError } ∧
    (authenticateRec fixEnv fixOptsLA fixFresh "pw" 5000).outcome =
      .fail { result := none, message := fixOptsLA.noSaltValueStoredError } :=
  ⟨(auth_failure_reason_codes fixEnv fixOptsLA [fixCred] fixCred "nobody" "wrong" 1000).1
      (by decide) (by decide) (by decide),
   (auth_failure_reason_codes fixEnv fixOptsLA [fixCred] fixCred "nobody" "pw" 1000).2.1
      (by decide) (by decide),
   (auth_failure_reason_codes fixEnv fixOptsLA [] fixFresh "x" "pw" 50).2.2.1
      (by decide) (by decide),
   (auth_failure_reason_codes fixEnv fixOptsLA [] fixFresh "x" "pw" 5000).2.2.2
      (by decide) (by decide)⟩

end PassportEmail
